import Mathlib

/-!
Verification development for the Chari API stub (`src/server.js`).

The definitions below are a shallow embedding of the in-memory data model,
the transaction generator, the transaction-to-operation transformer, the
pagination logic and the mutating customer/transfer handlers of the server.
Monetary values are modelled as rationals (`ℚ`), JavaScript strings as Lean
`String`s, nullable values as `Option`, and the process-wide mutable maps as
association lists keyed by phone number.
-/

/-- A stored transaction record, as produced by `generateFakeTransactions`
in `server.js`.  Field `type` holds the transaction kind string
(CASHIN, CASHOUT, TRANSFER_IN, TRANSFER_OUT, BILL_PAYMENT). -/
structure Transaction where
  id : String
  type : String
  amount : ℚ
  currency : String
  date : String
  description : String
  status : String
  balanceAfter : ℚ
  deriving DecidableEq, Repr

/-- Result of `extractPhoneNumbers` in `server.js`: the three nullable
counter-party fields. -/
structure Counterparties where
  sender : Option String
  receiver : Option String
  beneficiary : Option String
  deriving DecidableEq, Repr

/-- `getOperationType` from `server.js`: the `typeMap[transactionType] || 0`
lookup, written as a case split over the five known type strings. -/
def getOperationType (transactionType : String) : ℕ :=
  if transactionType = "CASHIN" then 1
  else if transactionType = "CASHOUT" then 2
  else if transactionType = "TRANSFER_IN" then 3
  else if transactionType = "TRANSFER_OUT" then 3
  else if transactionType = "BILL_PAYMENT" then 4
  else 0

/-- `getTransactionStatus` from `server.js`: COMPLETED maps to 2, anything
else to 1. -/
def getTransactionStatus (status : String) : ℕ :=
  if status = "COMPLETED" then 2 else 1

/-- Decides whether a character list is exactly the shape matched by the
regular expression `\+212\d{9}` of `server.js`: a `+212` followed by
exactly nine decimal digits. -/
def phoneShapedL (m : List Char) : Bool :=
  match m with
  | '+' :: '2' :: '1' :: '2' :: ds => ds.length == 9 && ds.all Char.isDigit
  | _ => false

/-- Attempts to match `\+212\d{9}` at the very start of the character list,
returning the matched characters. -/
def phoneAt (l : List Char) : Option (List Char) :=
  match l with
  | '+' :: '2' :: '1' :: '2' :: rest =>
      let ds := rest.take 9
      if ds.length == 9 && ds.all Char.isDigit
      then some ('+' :: '2' :: '1' :: '2' :: ds)
      else none
  | _ => none

/-- Scans the character list left to right for the first match of
`\+212\d{9}` (the semantics of `String.prototype.match` with a non-global
regex in `server.js`). -/
def findPhoneAux : List Char → Option (List Char)
  | [] => none
  | c :: rest =>
      match phoneAt (c :: rest) with
      | some m => some m
      | none => findPhoneAux rest

/-- `description.match(/\+212\d{9}/)` from `server.js`, returning the first
matched substring or `none`. -/
def findPhone (s : String) : Option String :=
  (findPhoneAux s.data).map fun m => String.mk m

/-- `extractPhoneNumbers` from `server.js`: derives the counter-party
fields from the transaction type and description. -/
def extractPhoneNumbers (tx : Transaction) (customerPhone : String) : Counterparties :=
  if tx.type = "TRANSFER_OUT" then
    { sender := some customerPhone
      receiver := findPhone tx.description
      beneficiary := some tx.description }
  else if tx.type = "TRANSFER_IN" then
    { sender := findPhone tx.description
      receiver := some customerPhone
      beneficiary := some tx.description }
  else if tx.type = "CASHIN" then
    { sender := some customerPhone
      receiver := some customerPhone
      beneficiary := none }
  else if tx.type = "CASHOUT" then
    { sender := some customerPhone
      receiver := some customerPhone
      beneficiary := none }
  else
    -- BILL_PAYMENT and any other type
    { sender := some customerPhone
      receiver := none
      beneficiary := none }

/-- `String(n).padStart(2, '0')` for natural numbers. -/
def padStart2 (n : ℕ) : String :=
  if n < 10 then "0" ++ toString n else toString n

/-- `String(n).padStart(3, '0')` for natural numbers. -/
def padStart3 (n : ℕ) : String :=
  if n < 10 then "00" ++ toString n
  else if n < 100 then "0" ++ toString n
  else toString n

/-- The numeric value of a list of decimal digit characters. -/
def digitsToNat (l : List Char) : ℕ :=
  l.foldl (fun acc c => acc * 10 + (c.toNat - '0'.toNat)) 0

/-- `parseInt` on a decimal string: reads the leading run of digits,
`none` standing for JavaScript's `NaN` when there is none. -/
def jsParseInt (s : String) : Option ℕ :=
  let ds := s.data.takeWhile Char.isDigit
  if ds.isEmpty then none else some (digitsToNat ds)

/-- `generateTransactionReference` from `server.js`.  The JavaScript code
parses `tx.date` with `new Date` and reads local-time components; since the
fixture dates are ISO-8601 strings, the model reads the year, month, day
and hour digits directly from the string (no claim depends on this field). -/
def generateTransactionReference (tx : Transaction) (operationType : ℕ) : String :=
  let year := (tx.date.take 4).drop 2
  let month := (tx.date.drop 5).take 2
  let day := (tx.date.drop 8).take 2
  let hour := (tx.date.drop 11).take 2
  let txId := tx.id.replace "TXN_" ""
  let opTypeStr := padStart2 operationType
  "T" ++ opTypeStr ++ opTypeStr ++ "-" ++ year ++ month ++ day ++ hour ++ "-" ++ txId

/-- The externally visible operation view built by `transactionToOperation`
in `server.js`. -/
structure Operation where
  operationId : Option ℕ
  transactionId : Option ℕ
  transactionReference : String
  amount : ℚ
  reason : Option String
  operationType : ℕ
  transactionDate : String
  sens : ℕ
  transactionStatus : ℕ
  feesAmount : ℚ
  totalAmount : ℚ
  transactionFeesId : Option ℕ
  sender : Option String
  receiver : Option String
  beneficiary : Option String
  accountNumber : String
  beneficiaryName : String
  currency : String
  balanceAfter : ℚ
  deriving DecidableEq, Repr

/-- `transactionToOperation` from `server.js`.  JavaScript falsiness of the
empty string is made explicit in the `reason` (`tx.description || null`),
`beneficiaryName` (`beneficiary || ''`) and `currency`
(`tx.currency || 'MAD'`) fields. -/
def transactionToOperation (tx : Transaction) (phoneNumber : String)
    (operationId : Option ℕ) : Operation :=
  let opType := getOperationType tx.type
  let amount := |tx.amount|
  let cp := extractPhoneNumbers tx phoneNumber
  { operationId := operationId
    transactionId := jsParseInt (tx.id.replace "TXN_" "")
    transactionReference := generateTransactionReference tx opType
    amount := amount
    reason := if tx.description = "" then none else some tx.description
    operationType := opType
    transactionDate := tx.date
    sens := if 0 < tx.amount then 1 else 2
    transactionStatus := getTransactionStatus tx.status
    feesAmount := 0
    totalAmount := amount
    transactionFeesId := none
    sender := cp.sender
    receiver := cp.receiver
    beneficiary := cp.beneficiary
    accountNumber := phoneNumber
    beneficiaryName := cp.beneficiary.getD ""
    currency := if tx.currency = "" then "MAD" else tx.currency
    balanceAfter := tx.balanceAfter }

/-! ## Transaction generator (`generateFakeTransactions`) -/

/-- One iteration's worth of random choices consumed by the generator loop
in `server.js`: the uniformly drawn type index (`Math.floor(Math.random()*5)`),
the drawn magnitude (`Math.random() * 1000 + 50`), the computed timestamp
(which depends on the wall clock `now` and the random hour/minute, so it is
taken as an input here), the description index and the status index
(`Math.floor(Math.random()*5)` over the weighted status list). -/
structure Draw where
  typeIndex : Fin 5
  magnitude : ℚ
  dateIso : String
  descIndex : ℕ
  statusIndex : Fin 5
  deriving DecidableEq

/-- The `transactionTypes` array of `server.js`. -/
def transactionTypes : List String :=
  ["CASHIN", "CASHOUT", "TRANSFER_IN", "TRANSFER_OUT", "BILL_PAYMENT"]

/-- The `descriptions` object of `server.js`, keyed by transaction type. -/
def descriptionsFor (t : String) : List String :=
  if t = "CASHIN" then
    ["Mobile money deposit", "Cash deposit at agent", "Cash deposit at branch",
     "ATM deposit", "Bank transfer in"]
  else if t = "CASHOUT" then
    ["ATM withdrawal", "Cash withdrawal at agent", "Cash withdrawal at branch",
     "Point of sale"]
  else if t = "TRANSFER_IN" then
    ["Transfer from +212611111111", "Transfer from +212622222222",
     "Transfer from +212633333333", "Salary payment", "Family transfer"]
  else if t = "TRANSFER_OUT" then
    ["Transfer to +212644444444", "Transfer to +212655555555",
     "Payment to merchant", "Bill payment", "Friend transfer"]
  else
    ["Electricity bill", "Water bill", "Internet bill", "Mobile top-up",
     "Insurance payment"]

/-- The `statuses` array of `server.js` (weighted towards COMPLETED). -/
def statusChoices : List String :=
  ["COMPLETED", "COMPLETED", "COMPLETED", "COMPLETED", "PENDING"]

/-- `parseFloat(x.toFixed(2))` of `server.js`, modelled exactly on the
rationals as rounding to the nearest multiple of `1/100`. -/
def round2 (q : ℚ) : ℚ :=
  ((round (q * 100) : ℤ) : ℚ) / 100

/-- The signed `amount` of one generator iteration: the drawn magnitude,
negated unless the drawn type is a credit (CASHIN or TRANSFER_IN). -/
def signedAmount (d : Draw) : ℚ :=
  let type := transactionTypes.getD d.typeIndex.val ""
  if type = "CASHIN" ∨ type = "TRANSFER_IN" then d.magnitude else -d.magnitude

/-- The transaction record pushed by iteration `i` of the generator loop,
starting from running balance `bal` before this iteration.  The stored
`amount` and `balanceAfter` are both passed through `toFixed(2)` while the
running balance itself accumulates the unrounded amount, exactly as in
`server.js`. -/
def mkFakeTransaction (i : ℕ) (bal : ℚ) (d : Draw) : Transaction :=
  let type := transactionTypes.getD d.typeIndex.val ""
  let descList := descriptionsFor type
  { id := "TXN_" ++ padStart3 (i + 1)
    type := type
    amount := round2 (signedAmount d)
    currency := "MAD"
    date := d.dateIso
    description := descList.getD (d.descIndex % descList.length) ""
    status := statusChoices.getD d.statusIndex.val ""
    balanceAfter := round2 (bal + signedAmount d) }

/-- The generator loop in generation (oldest-first) order: iteration `i`
with running balance `bal`.  `server.js` `unshift`s each record, so the
external list is the reverse of this one. -/
def genOldestFirst (i : ℕ) (bal : ℚ) : List Draw → List Transaction
  | [] => []
  | d :: rest => mkFakeTransaction i bal d :: genOldestFirst (i + 1) (bal + signedAmount d) rest

/-- `currentBalance = 5000.00` at the top of `generateFakeTransactions`. -/
def startingBalance : ℚ := 5000

/-- `generateFakeTransactions` from `server.js`, parameterised by the list
of random draws (whose length is the `count` argument).  The result is
newest-first, as produced by the `unshift` loop. -/
def generateFakeTransactions (draws : List Draw) : List Transaction :=
  (genOldestFirst 0 startingBalance draws).reverse

/-- Oldest-first replay of a transaction list: starting from `seed`, add
each stored signed `amount` and record the running value after each step. -/
def replayBalances (seed : ℚ) : List Transaction → List ℚ
  | [] => []
  | tx :: rest => (seed + tx.amount) :: replayBalances (seed + tx.amount) rest

/-- A rational is an exact multiple of `0.01`, i.e. the two-decimal
rounding of `toFixed(2)` is lossless on it. -/
def IsCentMultiple (q : ℚ) : Prop := ∃ n : ℤ, q * 100 = n

/-! ## Pagination: `GET /customers/transactions` and `GET /operations` -/

/-- Response shape of the `GET /customers/transactions` handler. -/
structure TransactionsResponse where
  transactions : List Transaction
  total : ℕ
  limit : ℕ
  offset : ℕ
  page : ℕ
  totalPages : ℕ
  hasMore : Bool
  hasPrevious : Bool
  deriving DecidableEq, Repr

/-- The `GET /customers/transactions` handler of `server.js` after the
phone-number check: `txs` is `mockData.transactions[phoneNumber] || []`,
`limit` the parsed page size, `offsetParam` the `offset` query parameter
(`none` models an absent or empty — falsy — parameter, `some o` a numeric
one, including the truthy string `"0"`), and `page` the parsed page number. -/
def getCustomerTransactions (txs : List Transaction) (limit : ℕ)
    (offsetParam : Option ℕ) (page : ℕ) : TransactionsResponse :=
  let pageSize := limit
  let pageNumber := page
  let startIndex := match offsetParam with
    | some o => o
    | none => (pageNumber - 1) * pageSize
  let endIndex := startIndex + pageSize
  let paginatedTransactions := (txs.drop startIndex).take pageSize
  let totalPages := (txs.length + pageSize - 1) / pageSize
  let currentPage := startIndex / pageSize + 1
  { transactions := paginatedTransactions
    total := txs.length
    limit := pageSize
    offset := startIndex
    page := currentPage
    totalPages := totalPages
    hasMore := decide (endIndex < txs.length)
    hasPrevious := decide (0 < startIndex) }

/-- The filter predicate applied by the `GET /operations` handler:
membership of `tx.type` in the requested `operationType` values, and a
case-insensitive comparison of `tx.status` with `transactionStatus`. -/
def matchesFilters (opTypes : Option (List String)) (status : Option String)
    (tx : Transaction) : Bool :=
  (match opTypes with
   | some l => l.contains tx.type
   | none => true)
  && (match status with
      | some s => tx.status.toUpper == s.toUpper
      | none => true)

/-- The two sequential `filter` passes of the `GET /operations` handler
(`operationType` first, then `transactionStatus`). -/
def applyFilters (txs : List Transaction) (opTypes : Option (List String))
    (status : Option String) : List Transaction :=
  let t1 := match opTypes with
    | some l => txs.filter fun tx => l.contains tx.type
    | none => txs
  match status with
  | some s => t1.filter fun tx => tx.status.toUpper == s.toUpper
  | none => t1

/-- `paginatedTransactions.map((tx, index) => transactionToOperation(tx,
phoneNumber, startIndex + index + 1))` from the `GET /operations` handler,
with the running map index made explicit. -/
def mapWithOperationIds (phone : String) (startIndex : ℕ) :
    List Transaction → ℕ → List Operation
  | [], _ => []
  | tx :: rest, i =>
      transactionToOperation tx phone (some (startIndex + i + 1))
        :: mapWithOperationIds phone startIndex rest (i + 1)

/-- Response shape of the main `GET /operations` handler. -/
structure OperationsResponse where
  collection : List Operation
  count : ℕ
  total : ℕ
  pageNumber : ℕ
  pageSize : ℕ
  totalPages : ℕ
  hasMore : Bool
  hasPrevious : Bool
  deriving DecidableEq, Repr

/-- The main `GET /operations` handler of `server.js` (the second, fully
formatted registration) after the phone-number check.  `opTypes` models the
optional `operationType` query values (a single string is wrapped in a
one-element list by the handler), `status` the optional `transactionStatus`
value. -/
def getOperations (txs : List Transaction) (phone : String)
    (opTypes : Option (List String)) (status : Option String)
    (pageSize pageNumber : ℕ) : OperationsResponse :=
  let filtered := applyFilters txs opTypes status
  let totalRecords := filtered.length
  let totalPages := (totalRecords + pageSize - 1) / pageSize
  let startIndex := (pageNumber - 1) * pageSize
  let endIndex := startIndex + pageSize
  let paginatedTransactions := (filtered.drop startIndex).take pageSize
  let operations := mapWithOperationIds phone startIndex paginatedTransactions 0
  { collection := operations
    count := operations.length
    total := totalRecords
    pageNumber := pageNumber
    pageSize := pageSize
    totalPages := totalPages
    hasMore := decide (endIndex < totalRecords)
    hasPrevious := decide (1 < pageNumber) }

/-! ## Mutable fixture store and mutating handlers -/

/-- One entry of `mockData.customers`. -/
structure Customer where
  status : ℕ
  message : String
  deriving DecidableEq, Repr

/-- One entry of `mockData.registrations`. -/
structure Registration where
  firstName : String
  lastName : String
  cin : String
  walletType : String
  registeredAt : String
  deriving DecidableEq, Repr

/-- First-match lookup in an association list, modelling a JavaScript
object property read (`obj[key]`, `undefined` becoming `none`). -/
def lookupKey {α : Type} (l : List (String × α)) (k : String) : Option α :=
  match l with
  | [] => none
  | (k', v) :: rest => if k' = k then some v else lookupKey rest k

/-- Upsert into an association list, modelling a JavaScript object property
write (`obj[key] = v`). -/
def setEntry {α : Type} (l : List (String × α)) (k : String) (v : α) :
    List (String × α) :=
  match l with
  | [] => [(k, v)]
  | (k', v') :: rest =>
      if k' = k then (k, v) :: rest else (k', v') :: setEntry rest k v

/-- The process-wide mutable `mockData` maps mutated by the handlers.  The
per-customer transaction lists are read-only for every handler modelled
here, so the read handlers above take the relevant customer's list
(`mockData.transactions[phoneNumber] || []`) directly. -/
structure ServerState where
  customers : List (String × Customer)
  registrations : List (String × Registration)
  pins : List (String × String)
  balances : List (String × ℚ)
  deriving DecidableEq, Repr

/-- An HTTP reply from a mutating handler: `success` is the `{data: true}`
response, `failure` an `{errorCode, errorDescription}` error. -/
inductive ApiReply where
  | success
  | failure (code : ℕ) (msg : String)
  deriving DecidableEq, Repr

/-- `POST /customers/register` from `server.js`: after the required-field
check (missing or empty — falsy — fields rejected), overwrite the
registration record and set the customer status to 1.  `nowIso` stands for
`new Date().toISOString()`. -/
def postRegister (st : ServerState)
    (phoneNumber firstName lastName cin walletType nowIso : String) :
    ApiReply × ServerState :=
  if phoneNumber = "" ∨ firstName = "" ∨ lastName = "" ∨ cin = "" ∨ walletType = "" then
    (.failure 400 "Missing required fields", st)
  else
    (.success,
      { st with
        registrations := setEntry st.registrations phoneNumber
          ⟨firstName, lastName, cin, walletType, nowIso⟩
        customers := setEntry st.customers phoneNumber
          ⟨1, "Customer not confirmed"⟩ })

/-- `POST /customers/confirm` from `server.js`: required-field check, the
fixed OTP `"123456"`, then set the customer status to 2. -/
def postConfirm (st : ServerState) (phoneNumber code walletType : String) :
    ApiReply × ServerState :=
  if phoneNumber = "" ∨ code = "" ∨ walletType = "" then
    (.failure 400 "Missing required fields", st)
  else if code ≠ "123456" then
    (.failure 400 "Invalid confirmation code", st)
  else
    (.success,
      { st with
        customers := setEntry st.customers phoneNumber
          ⟨2, "Customer confirmed but no PIN"⟩ })

/-- `POST /customers/pin` from `server.js`: required-field check, then
store the PIN and set the customer status to 3. -/
def postCreatePin (st : ServerState) (phoneNumber pin : String) :
    ApiReply × ServerState :=
  if phoneNumber = "" ∨ pin = "" then
    (.failure 400 "Phone number and PIN are required", st)
  else
    (.success,
      { st with
        pins := setEntry st.pins phoneNumber pin
        customers := setEntry st.customers phoneNumber ⟨3, "Active customer"⟩ })

/-- Reply of the `POST /operations/transfer` handler. -/
inductive TransferReply where
  | ok (operationType : ℕ) (amount feesAmount totalAmount : ℚ)
      (reason recipientPhoneNumber : String)
  | failure (code : ℕ) (msg : String)
  deriving DecidableEq, Repr

/-- `POST /operations/transfer` from `server.js`: required-field check
(JavaScript falsiness of the number `0` for `amount` made explicit),
sender existence and activation check, balance check, then debit the
sender and credit the recipient. -/
def postTransfer (st : ServerState)
    (customerPhoneNumber recipientPhoneNumber : String) (amount : ℚ)
    (reason : String) : TransferReply × ServerState :=
  if customerPhoneNumber = "" ∨ amount = 0 ∨ recipientPhoneNumber = "" then
    (.failure 400 "Missing required fields", st)
  else
    match lookupKey st.customers customerPhoneNumber with
    | none => (.failure 400 "Sender not found or not activated", st)
    | some sender =>
      if sender.status < 3 then
        (.failure 400 "Sender not found or not activated", st)
      else
        let senderBalance := (lookupKey st.balances customerPhoneNumber).getD 0
        if senderBalance < amount then
          (.failure 400 "Insufficient balance", st)
        else
          let balances1 := setEntry st.balances customerPhoneNumber (senderBalance - amount)
          let recipientBalance := (lookupKey balances1 recipientPhoneNumber).getD 0
          let balances2 := setEntry balances1 recipientPhoneNumber (recipientBalance + amount)
          (.ok 3 amount 0 amount reason recipientPhoneNumber,
            { st with balances := balances2 })

/-- Reply of the `GET /customers/balance` handler. -/
inductive BalanceReply where
  | okBalance (balance : ℚ)
  | failure (code : ℕ) (msg : String)
  deriving DecidableEq, Repr

/-- `GET /customers/balance` from `server.js`: missing-parameter check,
then `mockData.balances[phoneNumber] || 1500.00` (the JavaScript `||`
default also replaces a stored falsy balance of `0`). -/
def getBalance (balances : List (String × ℚ)) (phoneNumber : Option String) :
    BalanceReply :=
  match phoneNumber with
  | none => .failure 400 "Phone number is required"
  | some p =>
      if p = "" then .failure 400 "Phone number is required"
      else
        .okBalance (match lookupKey balances p with
          | some b => if b = 0 then 1500 else b
          | none => 1500)

/-! ## Startup fixtures (the deterministic part of `mockData`) -/

/-- The `mockData.customers` fixture. -/
def mockCustomers : List (String × Customer) :=
  [("+212600000001", ⟨0, "Customer not found"⟩),
   ("+212600000002", ⟨1, "Customer not confirmed"⟩),
   ("+212600000003", ⟨2, "Customer confirmed but no PIN"⟩),
   ("+212600000004", ⟨3, "Active customer"⟩),
   ("+212600000005", ⟨4, "Temporarily locked"⟩),
   ("+212600000006", ⟨5, "Permanently locked"⟩)]

/-- The `mockData.registrations` fixture. -/
def mockRegistrations : List (String × Registration) :=
  [("+212600000002", ⟨"Ahmed", "Ben Ali", "AB123456", "P", "2024-01-15T10:30:00Z"⟩),
   ("+212600000003", ⟨"Fatima", "Zahra", "CD789012", "P", "2024-01-20T14:15:00Z"⟩),
   ("+212600000004", ⟨"Mohammed", "Alami", "EF345678", "P", "2024-01-10T09:45:00Z"⟩)]

/-- The `mockData.pins` fixture. -/
def mockPins : List (String × String) := [("+212600000004", "1234")]

/-- The `mockData.balances` fixture. -/
def mockBalances : List (String × ℚ) :=
  [("+212600000004", 324775 / 100),
   ("+212600000003", 150),
   ("+212600000002", 0)]

/-- The deterministic part of the startup `mockData` store. -/
def mockState : ServerState :=
  { customers := mockCustomers
    registrations := mockRegistrations
    pins := mockPins
    balances := mockBalances }

/-! ## Customer-lifecycle operation sequences (for the status invariant) -/

/-- One of the three status-mutating customer operations. -/
inductive CustomerOp where
  | register (phoneNumber firstName lastName cin walletType nowIso : String)
  | confirm (phoneNumber code walletType : String)
  | createPin (phoneNumber pin : String)
  deriving DecidableEq, Repr

/-- The phone number a customer operation addresses. -/
def opPhone : CustomerOp → String
  | .register p _ _ _ _ _ => p
  | .confirm p _ _ => p
  | .createPin p _ => p

/-- The status value an operation writes when it succeeds: register 1,
confirm 2, create-PIN 3. -/
def opTarget : CustomerOp → ℕ
  | .register _ _ _ _ _ _ => 1
  | .confirm _ _ _ => 2
  | .createPin _ _ => 3

/-- The state transition of one customer operation (its HTTP reply
discarded). -/
def applyOp (st : ServerState) : CustomerOp → ServerState
  | .register p f l c w n => (postRegister st p f l c w n).2
  | .confirm p c w => (postConfirm st p c w).2
  | .createPin p pin => (postCreatePin st p pin).2

/-- Sequential execution of a list of customer operations. -/
def runOps (st : ServerState) (ops : List CustomerOp) : ServerState :=
  ops.foldl applyOp st

/-- The stored status of a customer, absence read as 0 (the "not exists"
status of the data model). -/
def statusD (st : ServerState) (p : String) : ℕ :=
  match lookupKey st.customers p with
  | some c => c.status
  | none => 0

/-- The target statuses of the operations of a sequence that address
customer `p`, in order. -/
def targetsFor (p : String) (ops : List CustomerOp) : List ℕ :=
  (ops.filter fun o => opPhone o == p).map opTarget

/-! ## Concrete sample data for witnesses and counterexamples -/

/-- A concrete CASHIN transaction. -/
def sampleTx1 : Transaction :=
  { id := "TXN_001", type := "CASHIN", amount := 100, currency := "MAD",
    date := "2025-01-01T01:00:00.000Z", description := "ATM deposit",
    status := "COMPLETED", balanceAfter := 5100 }

/-- A concrete CASHOUT transaction. -/
def sampleTx2 : Transaction :=
  { id := "TXN_002", type := "CASHOUT", amount := -50, currency := "MAD",
    date := "2025-01-02T02:00:00.000Z", description := "ATM withdrawal",
    status := "PENDING", balanceAfter := 5050 }

/-- A second concrete CASHIN transaction. -/
def sampleTx3 : Transaction :=
  { id := "TXN_003", type := "CASHIN", amount := 25, currency := "MAD",
    date := "2025-01-03T03:00:00.000Z", description := "Bank transfer in",
    status := "COMPLETED", balanceAfter := 5075 }

/-- A small concrete transaction list used to instantiate the pagination
theorems. -/
def sampleTxs : List Transaction := [sampleTx1, sampleTx2, sampleTx3]

/-- A concrete TRANSFER_OUT transaction. -/
def txTransferOut : Transaction :=
  { id := "TXN_007", type := "TRANSFER_OUT", amount := -100, currency := "MAD",
    date := "2025-01-02T03:04:05.000Z", description := "Transfer to +212644444444",
    status := "COMPLETED", balanceAfter := 4900 }

/-- Two CASHIN draws of magnitude 100.004 each: the stored amounts are
rounded to 100.00 while the running balance accumulates the unrounded
values. -/
def cexDraw : Draw :=
  { typeIndex := 0, magnitude := 100 + 1 / 250,
    dateIso := "2025-01-01T01:00:00.000Z", descIndex := 0, statusIndex := 0 }

/-- A draw with a cent-exact magnitude of 100.25. -/
def centDraw : Draw :=
  { typeIndex := 0, magnitude := 401 / 4,
    dateIso := "2025-01-01T01:00:00.000Z", descIndex := 0, statusIndex := 0 }

/-- A fresh customer's canonical lifecycle sequence, used to instantiate
the status-monotonicity theorem. -/
def lifecycleOps : List CustomerOp :=
  [.register "+212600000009" "Sara" "Idrissi" "GH901234" "P"
      "2026-01-01T00:00:00Z",
   .confirm "+212600000009" "123456" "P",
   .createPin "+212600000009" "1234"]

/-! ## Characterisation of the phone-number extraction -/

/-- `r` is the leftmost `\+212\d{9}`-shaped substring of `d` (`none` when
`d` has no such substring).  This is the specification-side description of
"first phone-number-shaped substring found in the description, or none if
absent". -/
def firstPhoneSpec (d : String) : Option String → Prop
  | none => ∀ pre m post, d.data = pre ++ m ++ post → phoneShapedL m = false
  | some s => phoneShapedL s.data = true ∧
      ∃ pre post, d.data = pre ++ s.data ++ post ∧
        ∀ pre' m post', d.data = pre' ++ m ++ post' → phoneShapedL m = true →
          pre.length ≤ pre'.length

theorem phoneShapedL_eq_true_iff (m : List Char) :
    phoneShapedL m = true ↔
      ∃ ds, m = '+' :: '2' :: '1' :: '2' :: ds ∧ ds.length = 9 ∧
        ds.all Char.isDigit = true := by
  constructor
  · intro h
    unfold phoneShapedL at h
    split at h
    · next ds => exact ⟨ds, rfl, by simpa using h⟩
    · exact absurd h (by simp)
  · rintro ⟨ds, rfl, h9, hd⟩
    simp [phoneShapedL, h9, hd]

theorem phoneAt_eq_some {l m : List Char} (h : phoneAt l = some m) :
    phoneShapedL m = true ∧ ∃ post, l = m ++ post := by
  unfold phoneAt at h
  split at h
  · next rest =>
    by_cases hc : ((rest.take 9).length == 9 && (rest.take 9).all Char.isDigit) = true
    · rw [if_pos hc] at h
      obtain rfl := Option.some.inj h
      refine ⟨by simpa [phoneShapedL] using hc, rest.drop 9, ?_⟩
      simp
    · rw [if_neg hc] at h
      exact absurd h (by simp)
  · exact absurd h (by simp)

theorem phoneAt_append {m : List Char} (hs : phoneShapedL m = true)
    (post : List Char) : phoneAt (m ++ post) = some m := by
  obtain ⟨ds, rfl, h9, hd⟩ := (phoneShapedL_eq_true_iff m).1 hs
  have ht : (ds ++ post).take 9 = ds := by
    rw [← h9]; exact List.take_left ds post
  show phoneAt ('+' :: '2' :: '1' :: '2' :: (ds ++ post)) = _
  unfold phoneAt
  simp [ht, h9, hd]

theorem findPhoneAux_eq_none {l : List Char} (h : findPhoneAux l = none) :
    ∀ pre m post, l = pre ++ m ++ post → phoneShapedL m = false := by
  induction l with
  | nil =>
    intro pre m post hdec
    have : m = [] := by
      rcases List.append_eq_nil.1 hdec.symm with ⟨h1, _⟩
      exact (List.append_eq_nil.1 h1).2
    simp [this, phoneShapedL]
  | cons c rest ih =>
    intro pre m post hdec
    have hsplit : phoneAt (c :: rest) = none ∧ findPhoneAux rest = none := by
      unfold findPhoneAux at h
      cases hpa : phoneAt (c :: rest) with
      | some m0 => rw [hpa] at h; exact absurd h (by simp)
      | none => rw [hpa] at h; exact ⟨rfl, h⟩
    by_contra hne
    have hsh : phoneShapedL m = true := by
      cases hb : phoneShapedL m with
      | false => exact absurd hb hne
      | true => rfl
    cases pre with
    | nil =>
      simp only [List.nil_append] at hdec
      have := phoneAt_append hsh post
      rw [← hdec] at this
      rw [this] at hsplit
      exact absurd hsplit.1 (by simp)
    | cons p pre' =>
      have hc : c = p ∧ rest = pre' ++ m ++ post := by
        simpa using hdec
      exact absurd (ih hsplit.2 pre' m post hc.2) (by simp [hsh])

theorem findPhoneAux_eq_some {l m : List Char} (h : findPhoneAux l = some m) :
    phoneShapedL m = true ∧
      ∃ pre post, l = pre ++ m ++ post ∧
        ∀ pre' m' post', l = pre' ++ m' ++ post' → phoneShapedL m' = true →
          pre.length ≤ pre'.length := by
  induction l with
  | nil => exact absurd h (by simp [findPhoneAux])
  | cons c rest ih =>
    unfold findPhoneAux at h
    cases hpa : phoneAt (c :: rest) with
    | some m0 =>
      rw [hpa] at h
      obtain rfl := Option.some.inj h
      obtain ⟨hs, post, hdec⟩ := phoneAt_eq_some hpa
      exact ⟨hs, [], post, by simpa using hdec, fun _ _ _ _ _ => Nat.zero_le _⟩
    | none =>
      rw [hpa] at h
      obtain ⟨hs, pre, post, hdec, hmin⟩ := ih h
      refine ⟨hs, c :: pre, post, by simp [hdec], ?_⟩
      intro pre' m' post' hdec' hsh'
      cases pre' with
      | nil =>
        simp only [List.nil_append] at hdec'
        have := phoneAt_append hsh' post'
        rw [← hdec'] at this
        rw [this] at hpa
        exact absurd hpa (by simp)
      | cons p pre'' =>
        have hc : c = p ∧ rest = pre'' ++ m' ++ post' := by
          simpa using hdec'
        simpa using Nat.succ_le_succ (hmin pre'' m' post' hc.2 hsh')

/-- `findPhone` returns exactly the leftmost `\+212\d{9}`-shaped substring
of its argument, or `none` when there is no such substring. -/
theorem findPhone_firstPhoneSpec (d : String) :
    firstPhoneSpec d (findPhone d) := by
  unfold findPhone
  cases h : findPhoneAux d.data with
  | none =>
    simpa [firstPhoneSpec] using findPhoneAux_eq_none h
  | some m =>
    obtain ⟨hs, pre, post, hdec, hmin⟩ := findPhoneAux_eq_some h
    exact ⟨hs, pre, post, hdec, hmin⟩

/-! ## Claim theorems -/

/-- C2: for every transaction and owner phone, the counter-party fields of
the derived operation satisfy: TRANSFER_OUT has sender = owner, receiver =
the leftmost phone-number-shaped (`+212` plus nine digits, the shape of the
handler's `\+212\d{9}` pattern) substring of the description or `none` when
absent, beneficiary = the full description; TRANSFER_IN the same with
sender and receiver swapped; CASHIN and CASHOUT have sender = receiver =
owner.  Extraction is total, so a description without a phone-shaped
substring silently yields `none` rather than an error. -/
theorem c2_counterparty_extraction (tx : Transaction) (p : String) :
    (tx.type = "TRANSFER_OUT" →
      (extractPhoneNumbers tx p).sender = some p ∧
      (extractPhoneNumbers tx p).beneficiary = some tx.description ∧
      firstPhoneSpec tx.description (extractPhoneNumbers tx p).receiver) ∧
    (tx.type = "TRANSFER_IN" →
      (extractPhoneNumbers tx p).receiver = some p ∧
      (extractPhoneNumbers tx p).beneficiary = some tx.description ∧
      firstPhoneSpec tx.description (extractPhoneNumbers tx p).sender) ∧
    ((tx.type = "CASHIN" ∨ tx.type = "CASHOUT") →
      (extractPhoneNumbers tx p).sender = some p ∧
      (extractPhoneNumbers tx p).receiver = some p) := by
  refine ⟨?_, ?_, ?_⟩
  · intro h
    unfold extractPhoneNumbers
    rw [h, if_pos rfl]
    exact ⟨rfl, rfl, findPhone_firstPhoneSpec _⟩
  · intro h
    unfold extractPhoneNumbers
    rw [h, if_neg (by decide), if_pos rfl]
    exact ⟨rfl, rfl, findPhone_firstPhoneSpec _⟩
  · rintro (h | h) <;>
      · unfold extractPhoneNumbers
        rw [h]
        refine ⟨?_, ?_⟩ <;> rfl

theorem c2_witness :
    (extractPhoneNumbers txTransferOut "+212600000004").sender = some "+212600000004" ∧
    (extractPhoneNumbers txTransferOut "+212600000004").beneficiary
        = some txTransferOut.description ∧
    firstPhoneSpec txTransferOut.description
      (extractPhoneNumbers txTransferOut "+212600000004").receiver :=
  (c2_counterparty_extraction txTransferOut "+212600000004").1 rfl

/-- C7: the derived operation has `operationType` 1 for CASHIN, 2 for
CASHOUT, 3 for TRANSFER_IN and TRANSFER_OUT, 4 for BILL_PAYMENT and 0 for
any other type; `transactionStatus` 2 exactly when the transaction status
is COMPLETED and 1 otherwise; and `sens` 1 when the signed amount is
positive and 2 otherwise. -/
theorem c7_code_mappings (tx : Transaction) (p : String) (oid : Option ℕ) :
    (transactionToOperation tx p oid).operationType =
      (if tx.type = "CASHIN" then 1 else if tx.type = "CASHOUT" then 2
       else if tx.type = "TRANSFER_IN" then 3
       else if tx.type = "TRANSFER_OUT" then 3
       else if tx.type = "BILL_PAYMENT" then 4 else 0) ∧
    (transactionToOperation tx p oid).transactionStatus =
      (if tx.status = "COMPLETED" then 2 else 1) ∧
    (transactionToOperation tx p oid).sens =
      (if 0 < tx.amount then 1 else 2) :=
  ⟨rfl, rfl, rfl⟩

theorem mapWithOperationIds_length (phone : String) (s : ℕ)
    (l : List Transaction) (i : ℕ) :
    (mapWithOperationIds phone s l i).length = l.length := by
  induction l generalizing i with
  | nil => rfl
  | cons tx rest ih => simp [mapWithOperationIds, ih]

theorem slice_length_int (l : List Transaction) (s k : ℕ) :
    (((l.drop s).take k).length : ℤ)
      = min (k : ℤ) (max 0 ((l.length : ℤ) - (s : ℤ))) := by
  have h : ((l.drop s).take k).length = min k (l.length - s) := by
    simp [List.length_take, List.length_drop]
  rw [h]
  omega

/-- C5: pagination returns the half-open slice `[start, start + pageSize)`
clipped to the list bounds, of length `min(pageSize, max(0, total - start))`,
with an out-of-range start yielding an empty slice rather than an error,
`hasMore = start + pageSize < total` and `hasPrevious = start > 0` — both
for the `GET /customers/transactions` handler (arbitrary offset start) and
for the `GET /operations` handler (page-derived start). -/
theorem c5_pagination_bounds (txs : List Transaction) (phone : String)
    (ps start anyPage pn : ℕ) (hps : 0 < ps) (hpn : 1 ≤ pn) :
    (getCustomerTransactions txs ps (some start) anyPage).transactions
        = (txs.drop start).take ps ∧
    (((getCustomerTransactions txs ps (some start) anyPage).transactions.length : ℤ)
        = min (ps : ℤ) (max 0 ((txs.length : ℤ) - (start : ℤ)))) ∧
    (txs.length ≤ start →
      (getCustomerTransactions txs ps (some start) anyPage).transactions = []) ∧
    (getCustomerTransactions txs ps (some start) anyPage).hasMore
        = decide (start + ps < txs.length) ∧
    (getCustomerTransactions txs ps (some start) anyPage).hasPrevious
        = decide (0 < start) ∧
    (((getOperations txs phone none none ps pn).collection.length : ℤ)
        = min (ps : ℤ) (max 0 ((txs.length : ℤ) - (((pn - 1) * ps : ℕ) : ℤ)))) ∧
    (getOperations txs phone none none ps pn).hasMore
        = decide ((pn - 1) * ps + ps < txs.length) ∧
    (getOperations txs phone none none ps pn).hasPrevious
        = decide (0 < (pn - 1) * ps) := by
  refine ⟨rfl, slice_length_int txs start ps, ?_, rfl, rfl, ?_, rfl, ?_⟩
  · intro h
    have hd : txs.drop start = [] := List.drop_eq_nil_of_le h
    show (txs.drop start).take ps = []
    rw [hd, List.take_nil]
  · show ((mapWithOperationIds phone ((pn - 1) * ps)
        (((applyFilters txs none none).drop ((pn - 1) * ps)).take ps) 0).length : ℤ) = _
    rw [mapWithOperationIds_length]
    exact slice_length_int txs ((pn - 1) * ps) ps
  · show decide (1 < pn) = decide (0 < (pn - 1) * ps)
    have : 1 < pn ↔ 0 < (pn - 1) * ps := by
      constructor
      · intro h
        exact Nat.mul_pos (by omega) hps
      · intro h
        rcases Nat.eq_zero_or_pos (pn - 1) with h0 | h0
        · rw [h0] at h
          simp at h
        · omega
    exact decide_eq_decide.mpr this

theorem c5_witness :
    ((getCustomerTransactions sampleTxs 2 (some 1) 1).transactions.length : ℤ)
      = min (2 : ℤ) (max 0 ((sampleTxs.length : ℤ) - (1 : ℤ))) :=
  (c5_pagination_bounds sampleTxs "+212600000004" 2 1 1 2 (by decide)
    (by decide)).2.1

/-- C6: offset-based and page-based addressing with the same start
position produce identical responses (slice and all metadata), and under
offset addressing the reported current page is `start / pageSize + 1`. -/
theorem c6_offset_page_equivalence (txs : List Transaction)
    (ps pn anyPage o : ℕ) (hps : 0 < ps) (hpn : 1 ≤ pn) :
    getCustomerTransactions txs ps (some ((pn - 1) * ps)) anyPage
      = getCustomerTransactions txs ps none pn ∧
    (getCustomerTransactions txs ps (some o) anyPage).page = o / ps + 1 :=
  ⟨rfl, rfl⟩

theorem c6_witness :
    getCustomerTransactions sampleTxs 2 (some ((2 - 1) * 2)) 7
      = getCustomerTransactions sampleTxs 2 none 2 :=
  (c6_offset_page_equivalence sampleTxs 2 2 7 0 (by decide) (by decide)).1

theorem filter_filter_eq (l : List Transaction) (p q : Transaction → Bool) :
    (l.filter p).filter q = l.filter fun tx => p tx && q tx := by
  induction l with
  | nil => rfl
  | cons tx rest ih =>
    by_cases hp : p tx
    · by_cases hq : q tx
      · simp [List.filter_cons, hp, hq, ih]
      · simp [List.filter_cons, hp, hq, ih]
    · simp [List.filter_cons, hp, ih]

theorem applyFilters_eq_filter (txs : List Transaction)
    (o : Option (List String)) (s : Option String) :
    applyFilters txs o s = txs.filter (matchesFilters o s) := by
  cases o with
  | none =>
    cases s with
    | none =>
      have h : matchesFilters none none = fun _ : Transaction => true := by
        funext tx; rfl
      rw [h, List.filter_true]
      rfl
    | some str =>
      have h : matchesFilters none (some str)
          = fun tx : Transaction => tx.status.toUpper == str.toUpper := by
        funext tx
        show (true && (tx.status.toUpper == str.toUpper))
            = (tx.status.toUpper == str.toUpper)
        rw [Bool.true_and]
      rw [h]
      rfl
  | some l =>
    cases s with
    | none =>
      have h : matchesFilters (some l) none
          = fun tx : Transaction => l.contains tx.type := by
        funext tx
        show ((l.contains tx.type) && true) = l.contains tx.type
        rw [Bool.and_true]
      rw [h]
      rfl
    | some str =>
      show ((txs.filter _).filter _) = _
      rw [filter_filter_eq]
      rfl

theorem mem_mapWithOperationIds {phone : String} {s : ℕ}
    {l : List Transaction} {i : ℕ} {op : Operation}
    (h : op ∈ mapWithOperationIds phone s l i) :
    ∃ tx ∈ l, ∃ oid, op = transactionToOperation tx phone oid := by
  induction l generalizing i with
  | nil => simp [mapWithOperationIds] at h
  | cons tx rest ih =>
    simp only [mapWithOperationIds, List.mem_cons] at h
    rcases h with h | h
    · exact ⟨tx, List.mem_cons_self tx rest, some (s + i + 1), h⟩
    · obtain ⟨tx', htx', oid, rfl⟩ := ih h
      exact ⟨tx', List.mem_cons_of_mem _ htx', oid, rfl⟩

/-- C3: in the `GET /operations` handler the `operationType` filter (and
the optional `transactionStatus` filter) are applied to the full
transaction collection before pagination: the reported `total` is the
number of records matching the combined filter, and every operation of
every returned page is derived from a transaction that matches it. -/
theorem c3_filters_before_pagination (txs : List Transaction) (phone : String)
    (l : List String) (status : Option String) (ps pn : ℕ) :
    (getOperations txs phone (some l) status ps pn).total
        = (txs.filter (matchesFilters (some l) status)).length ∧
    ∀ op ∈ (getOperations txs phone (some l) status ps pn).collection,
      ∃ tx, tx ∈ txs ∧ matchesFilters (some l) status tx = true ∧
        ∃ oid, op = transactionToOperation tx phone oid := by
  constructor
  · show (applyFilters txs (some l) status).length = _
    rw [applyFilters_eq_filter]
  · intro op hop
    have hop' : op ∈ mapWithOperationIds phone ((pn - 1) * ps)
        (((applyFilters txs (some l) status).drop ((pn - 1) * ps)).take ps) 0 := hop
    obtain ⟨tx, htx, oid, rfl⟩ := mem_mapWithOperationIds hop'
    have h1 : tx ∈ applyFilters txs (some l) status :=
      List.drop_subset _ _ (List.take_subset _ _ htx)
    rw [applyFilters_eq_filter] at h1
    have h2 := List.mem_filter.1 h1
    exact ⟨tx, h2.1, h2.2, oid, rfl⟩

theorem c3_witness :
    ∃ tx, tx ∈ sampleTxs ∧ matchesFilters (some ["CASHIN"]) none tx = true ∧
      ∃ oid, transactionToOperation sampleTx1 "+212600000004" (some 1)
        = transactionToOperation tx "+212600000004" oid :=
  (c3_filters_before_pagination sampleTxs "+212600000004" ["CASHIN"] none 10 1).2
    (transactionToOperation sampleTx1 "+212600000004" (some 1))
    (by
      show _ ∈ transactionToOperation sampleTx1 "+212600000004" (some 1)
          :: [transactionToOperation sampleTx3 "+212600000004" (some 2)]
      exact List.mem_cons_self _ _)

theorem mapWithOperationIds_get (phone : String) (s : ℕ)
    (l : List Transaction) :
    ∀ (j i : ℕ) (h : i < (mapWithOperationIds phone s l j).length),
      ((mapWithOperationIds phone s l j).get ⟨i, h⟩).operationId
        = some (s + (j + i) + 1) := by
  induction l with
  | nil => intro j i h; simp [mapWithOperationIds] at h
  | cons tx rest ih =>
    intro j i h
    cases i with
    | zero => rfl
    | succ i' =>
      have h' : i' < (mapWithOperationIds phone s rest (j + 1)).length := by
        have := h
        simp only [mapWithOperationIds, List.length_cons] at this
        omega
      show ((mapWithOperationIds phone s rest (j + 1)).get ⟨i', h'⟩).operationId = _
      rw [ih (j + 1) i' h']
      congr 2
      omega

/-- C9: the `operationId` of each operation returned by the paginated
`GET /operations` listing is its 1-based position within the full filtered
transaction list, `(pageNumber - 1) * pageSize + positionInPage`, so ids
continue across pages instead of restarting at 1. -/
theorem c9_sequential_operation_ids (txs : List Transaction) (phone : String)
    (opTypes : Option (List String)) (status : Option String) (ps pn : ℕ)
    (hpn : 1 ≤ pn) (i : ℕ)
    (hi : i < (getOperations txs phone opTypes status ps pn).collection.length) :
    ((getOperations txs phone opTypes status ps pn).collection.get
        ⟨i, hi⟩).operationId = some ((pn - 1) * ps + i + 1) := by
  have h := mapWithOperationIds_get phone ((pn - 1) * ps)
    (((applyFilters txs opTypes status).drop ((pn - 1) * ps)).take ps) 0 i hi
  simpa using h

theorem c9_witness :
    ((getOperations sampleTxs "+212600000004" none none 2 2).collection.get
        ⟨0, by decide⟩).operationId = some ((2 - 1) * 2 + 0 + 1) :=
  c9_sequential_operation_ids sampleTxs "+212600000004" none none 2 2
    (by decide) 0 (by decide)

/-- C10: a balance query for any phone number with no stored balance entry
— in particular an entirely unknown customer — succeeds with the default
balance 1500; the handler performs no customer-existence check, and the
only error it can ever return is the missing-phone-number validation
error. -/
theorem c10_default_balance (balances : List (String × ℚ)) (p : String)
    (hp : p ≠ "") (hnone : lookupKey balances p = none) :
    getBalance balances (some p) = .okBalance 1500 ∧
    (∀ s : String, s ≠ "" → ∃ b, getBalance balances (some s) = .okBalance b) ∧
    ∀ q : Option String,
      getBalance balances q = .failure 400 "Phone number is required" ∨
        ∃ b, getBalance balances q = .okBalance b := by
  refine ⟨?_, ?_, ?_⟩
  · unfold getBalance
    dsimp only
    rw [if_neg hp, hnone]
  · intro s hs
    unfold getBalance
    dsimp only
    rw [if_neg hs]
    exact ⟨_, rfl⟩
  · intro q
    cases q with
    | none => left; rfl
    | some s =>
      by_cases hs : s = ""
      · left
        unfold getBalance
        dsimp only
        rw [if_pos hs]
      · right
        unfold getBalance
        dsimp only
        rw [if_neg hs]
        exact ⟨_, rfl⟩

theorem c10_witness :
    getBalance mockBalances (some "+212699999999") = .okBalance 1500 :=
  (c10_default_balance mockBalances "+212699999999" (by decide) (by decide)).1

/-- C4 counterexample: the fixture customer `+212600000003` has stored
balance 150, strictly below the requested amount 200, yet the transfer
request is rejected with "Sender not found or not activated" (the customer
has status 2 < 3), not with "Insufficient balance" as the claim states. -/
theorem c4_counterexample :
    lookupKey mockState.balances "+212600000003" = some 150 ∧
    (150 : ℚ) < 200 ∧
    (postTransfer mockState "+212600000003" "+212600000004" 200 "").1
      = .failure 400 "Sender not found or not activated" ∧
    (postTransfer mockState "+212600000003" "+212600000004" 200 "").1
      ≠ .failure 400 "Insufficient balance" := by
  decide

/-- C4 (amended): for every transfer request with all required fields
present whose sender exists with status ≥ 3 and whose stored balance is
strictly below the requested amount, the transfer does not execute: the
reply is the 400 "Insufficient balance" error and the store — in
particular both parties' balances — is unchanged. -/
theorem c4_insufficient_balance (st : ServerState) (cp rp reason : String)
    (amount b : ℚ) (c : Customer)
    (hcp : cp ≠ "") (hrp : rp ≠ "") (hamt : amount ≠ 0)
    (hc : lookupKey st.customers cp = some c) (hst : 3 ≤ c.status)
    (hb : lookupKey st.balances cp = some b) (hlt : b < amount) :
    postTransfer st cp rp amount reason
      = (.failure 400 "Insufficient balance", st) := by
  have h1 : ¬(cp = "" ∨ amount = 0 ∨ rp = "") := by
    push_neg
    exact ⟨hcp, hamt, hrp⟩
  have h2 : ¬(c.status < 3) := by omega
  unfold postTransfer
  rw [if_neg h1, hc]
  dsimp only
  rw [if_neg h2, hb]
  dsimp only [Option.getD]
  rw [if_pos hlt]

theorem lookupKey_setEntry_same {α : Type} (l : List (String × α))
    (k : String) (v : α) : lookupKey (setEntry l k v) k = some v := by
  induction l with
  | nil => simp [setEntry, lookupKey]
  | cons kv rest ih =>
    obtain ⟨k', v'⟩ := kv
    by_cases h : k' = k
    · simp [setEntry, h, lookupKey]
    · simp [setEntry, h, lookupKey, ih]

theorem lookupKey_setEntry_ne {α : Type} (l : List (String × α))
    (k k' : String) (v : α) (h : k ≠ k') :
    lookupKey (setEntry l k v) k' = lookupKey l k' := by
  induction l with
  | nil => simp [setEntry, lookupKey, h]
  | cons kv rest ih =>
    obtain ⟨k0, v0⟩ := kv
    by_cases h0 : k0 = k
    · simp [setEntry, h0, lookupKey, h, ih]
    · simp [setEntry, h0, lookupKey, ih]

theorem customers_postRegister (st : ServerState)
    (q f l c w n : String) :
    (postRegister st q f l c w n).2.customers = st.customers ∨
    (postRegister st q f l c w n).2.customers
      = setEntry st.customers q ⟨1, "Customer not confirmed"⟩ := by
  unfold postRegister
  split
  · left; rfl
  · right; rfl

theorem customers_postConfirm (st : ServerState) (q c w : String) :
    (postConfirm st q c w).2.customers = st.customers ∨
    (postConfirm st q c w).2.customers
      = setEntry st.customers q ⟨2, "Customer confirmed but no PIN"⟩ := by
  unfold postConfirm
  split
  · left; rfl
  · split
    · left; rfl
    · right; rfl

theorem customers_postCreatePin (st : ServerState) (q pin : String) :
    (postCreatePin st q pin).2.customers = st.customers ∨
    (postCreatePin st q pin).2.customers
      = setEntry st.customers q ⟨3, "Active customer"⟩ := by
  unfold postCreatePin
  split
  · left; rfl
  · right; rfl

theorem statusD_applyOp_of_ne (st : ServerState) (op : CustomerOp)
    (p : String) (h : opPhone op ≠ p) :
    statusD (applyOp st op) p = statusD st p := by
  cases op with
  | register q f l c w n =>
    have hq : q ≠ p := h
    show statusD (postRegister st q f l c w n).2 p = statusD st p
    unfold statusD
    rcases customers_postRegister st q f l c w n with hc | hc
    · rw [hc]
    · rw [hc, lookupKey_setEntry_ne _ _ _ _ hq]
  | confirm q c w =>
    have hq : q ≠ p := h
    show statusD (postConfirm st q c w).2 p = statusD st p
    unfold statusD
    rcases customers_postConfirm st q c w with hc | hc
    · rw [hc]
    · rw [hc, lookupKey_setEntry_ne _ _ _ _ hq]
  | createPin q pin =>
    have hq : q ≠ p := h
    show statusD (postCreatePin st q pin).2 p = statusD st p
    unfold statusD
    rcases customers_postCreatePin st q pin with hc | hc
    · rw [hc]
    · rw [hc, lookupKey_setEntry_ne _ _ _ _ hq]

theorem statusD_applyOp_self (st : ServerState) (op : CustomerOp) :
    statusD (applyOp st op) (opPhone op) = statusD st (opPhone op) ∨
    statusD (applyOp st op) (opPhone op) = opTarget op := by
  cases op with
  | register q f l c w n =>
    rcases customers_postRegister st q f l c w n with hc | hc
    · left
      show statusD (postRegister st q f l c w n).2 q = statusD st q
      unfold statusD
      rw [hc]
    · right
      show statusD (postRegister st q f l c w n).2 q = 1
      unfold statusD
      rw [hc, lookupKey_setEntry_same]
  | confirm q c w =>
    rcases customers_postConfirm st q c w with hc | hc
    · left
      show statusD (postConfirm st q c w).2 q = statusD st q
      unfold statusD
      rw [hc]
    · right
      show statusD (postConfirm st q c w).2 q = 2
      unfold statusD
      rw [hc, lookupKey_setEntry_same]
  | createPin q pin =>
    rcases customers_postCreatePin st q pin with hc | hc
    · left
      show statusD (postCreatePin st q pin).2 q = statusD st q
      unfold statusD
      rw [hc]
    · right
      show statusD (postCreatePin st q pin).2 q = 3
      unfold statusD
      rw [hc, lookupKey_setEntry_same]

theorem chain_le_of_le {a b : ℕ} {l : List ℕ} (hab : a ≤ b)
    (h : List.Chain (· ≤ ·) b l) : List.Chain (· ≤ ·) a l := by
  cases h with
  | nil => exact List.Chain.nil
  | cons hbc hchain => exact List.Chain.cons (le_trans hab hbc) hchain

theorem targetsFor_cons (p : String) (op : CustomerOp)
    (ops : List CustomerOp) :
    targetsFor p (op :: ops) =
      if opPhone op = p then opTarget op :: targetsFor p ops
      else targetsFor p ops := by
  by_cases h : opPhone op = p
  · simp [targetsFor, List.filter_cons, h]
  · simp [targetsFor, List.filter_cons, h]

/-- C8 counterexample: the fixture customer `+212600000004` is stored with
status 3, and a single (re-)register operation moves its status down to 1,
so the stored status of an existing customer can transition backward. -/
theorem c8_counterexample :
    statusD mockState "+212600000004" = 3 ∧
    statusD (applyOp mockState
        (.register "+212600000004" "Mohammed" "Alami" "EF345678" "P"
          "2026-01-01T00:00:00Z")) "+212600000004" = 1 := by
  decide

/-- C8 (amended): register sets a customer's status to 1, confirm to 2 and
create-PIN to 3, unconditionally on the previous status.  Consequently the
stored status never decreases along a sequence of these operations
provided the operations addressed to the customer occur in lifecycle
order, i.e. their target statuses form a non-decreasing chain starting at
or above the customer's current status; re-applying an earlier lifecycle
operation (such as register after create-PIN) can decrease the status. -/
theorem c8_status_monotone (st : ServerState) (p : String)
    (ops : List CustomerOp)
    (hchain : List.Chain (· ≤ ·) (statusD st p) (targetsFor p ops)) :
    ∀ n, statusD (runOps st (ops.take n)) p
      ≤ statusD (runOps st (ops.take (n + 1))) p := by
  induction ops generalizing st with
  | nil =>
    intro n
    simp [runOps]
  | cons op rest ih =>
    intro n
    by_cases hp : opPhone op = p
    · rw [targetsFor_cons, if_pos hp] at hchain
      cases hchain with
      | cons hle htail =>
        have hstep := statusD_applyOp_self st op
        rw [hp] at hstep
        cases n with
        | zero =>
          show statusD st p ≤ statusD (applyOp st op) p
          rcases hstep with h | h
          · rw [h]
          · rw [h]; exact hle
        | succ n' =>
          show statusD (runOps (applyOp st op) (rest.take n')) p
              ≤ statusD (runOps (applyOp st op) (rest.take (n' + 1))) p
          apply ih (applyOp st op)
          rcases hstep with h | h
          · rw [h]; exact chain_le_of_le hle htail
          · rw [h]; exact htail
    · rw [targetsFor_cons, if_neg hp] at hchain
      have hstep := statusD_applyOp_of_ne st op p hp
      cases n with
      | zero =>
        show statusD st p ≤ statusD (applyOp st op) p
        rw [hstep]
      | succ n' =>
        show statusD (runOps (applyOp st op) (rest.take n')) p
            ≤ statusD (runOps (applyOp st op) (rest.take (n' + 1))) p
        apply ih (applyOp st op)
        rw [hstep]
        exact hchain

theorem c8_witness :
    statusD (runOps mockState (lifecycleOps.take 1)) "+212600000009"
      ≤ statusD (runOps mockState (lifecycleOps.take 2)) "+212600000009" :=
  c8_status_monotone mockState "+212600000009" lifecycleOps
    (by
      have ht : targetsFor "+212600000009" lifecycleOps = [1, 2, 3] := by decide
      have h0 : statusD mockState "+212600000009" = 0 := by decide
      rw [ht, h0]
      exact List.Chain.cons (by norm_num)
        (List.Chain.cons (by norm_num)
          (List.Chain.cons (by norm_num) List.Chain.nil)))
    1

theorem round2_eq_self {q : ℚ} (h : IsCentMultiple q) : round2 q = q := by
  obtain ⟨n, hn⟩ := h
  unfold round2
  rw [hn, round_intCast, div_eq_iff (by norm_num : (100 : ℚ) ≠ 0)]
  exact hn.symm

theorem IsCentMultiple.add {a b : ℚ} (ha : IsCentMultiple a)
    (hb : IsCentMultiple b) : IsCentMultiple (a + b) := by
  obtain ⟨m, hm⟩ := ha
  obtain ⟨n, hn⟩ := hb
  refine ⟨m + n, ?_⟩
  push_cast
  rw [add_mul, hm, hn]

theorem IsCentMultiple.neg {a : ℚ} (ha : IsCentMultiple a) :
    IsCentMultiple (-a) := by
  obtain ⟨m, hm⟩ := ha
  refine ⟨-m, ?_⟩
  push_cast
  rw [neg_mul, hm]

theorem isCentMultiple_signedAmount {d : Draw}
    (h : IsCentMultiple d.magnitude) : IsCentMultiple (signedAmount d) := by
  unfold signedAmount
  dsimp only
  split
  · exact h
  · exact h.neg

theorem isCentMultiple_startingBalance : IsCentMultiple startingBalance :=
  ⟨500000, by norm_num [startingBalance]⟩

theorem replay_genOldestFirst (draws : List Draw) :
    ∀ (i : ℕ) (bal : ℚ), IsCentMultiple bal →
      (∀ d ∈ draws, IsCentMultiple d.magnitude) →
      replayBalances bal (genOldestFirst i bal draws)
        = (genOldestFirst i bal draws).map Transaction.balanceAfter := by
  induction draws with
  | nil => intro i bal _ _; rfl
  | cons d rest ih =>
    intro i bal hbal hmag
    have hd : IsCentMultiple d.magnitude := hmag d (List.mem_cons_self _ _)
    have hsd := isCentMultiple_signedAmount hd
    have hba : IsCentMultiple (bal + signedAmount d) := hbal.add hsd
    have hamt : (mkFakeTransaction i bal d).amount = signedAmount d :=
      round2_eq_self hsd
    have hbAfter : (mkFakeTransaction i bal d).balanceAfter
        = bal + signedAmount d := round2_eq_self hba
    show (bal + (mkFakeTransaction i bal d).amount)
        :: replayBalances (bal + (mkFakeTransaction i bal d).amount)
            (genOldestFirst (i + 1) (bal + signedAmount d) rest)
      = (mkFakeTransaction i bal d).balanceAfter
        :: (genOldestFirst (i + 1) (bal + signedAmount d) rest).map
            Transaction.balanceAfter
    rw [hamt, hbAfter]
    exact congrArg _
      (ih (i + 1) (bal + signedAmount d) hba
        fun d' hd' => hmag d' (List.mem_cons_of_mem _ hd'))

/-- C1 counterexample: with two CASHIN draws of magnitude 100.004 each,
the second stored `balanceAfter` is 5200.01 while the replay of the stored
(rounded) amounts from the seed yields 5200.00, so replay does not
reproduce `balanceAfter`. -/
theorem c1_counterexample :
    replayBalances startingBalance
        ((generateFakeTransactions [cexDraw, cexDraw]).reverse)
      ≠ ((generateFakeTransactions [cexDraw, cexDraw]).reverse).map
          Transaction.balanceAfter := by
  unfold generateFakeTransactions
  rw [List.reverse_reverse]
  intro h
  have h2 : (startingBalance + round2 (signedAmount cexDraw))
        + round2 (signedAmount cexDraw)
      = round2 ((startingBalance + signedAmount cexDraw)
        + signedAmount cexDraw) := by
    have := congrArg (fun l : List ℚ => l.getD 1 0) h
    simpa [genOldestFirst, replayBalances, mkFakeTransaction,
      List.getD] using this
  have hs : signedAmount cexDraw = 100 + 1 / 250 := rfl
  have hsb : startingBalance = 5000 := rfl
  rw [hs, hsb] at h2
  have hr1 : round2 ((100 : ℚ) + 1 / 250) = 100 := by
    unfold round2
    rw [round_eq]
    norm_num [Int.floor_eq_iff]
  have hr2 : round2 (((5000 : ℚ) + (100 + 1 / 250)) + (100 + 1 / 250))
      = 520001 / 100 := by
    unfold round2
    rw [round_eq]
    norm_num [Int.floor_eq_iff]
  rw [hr1, hr2] at h2
  norm_num at h2

/-- C1 (amended): when every drawn magnitude is an exact multiple of 0.01
(so the `toFixed(2)` storage rounding is lossless), replaying the emitted
transaction list oldest-to-newest, starting from the seed balance of 5000
and adding each stored signed amount, reproduces every stored
`balanceAfter` value; for magnitudes with sub-cent parts the stored
amounts are rounded while the running balance is not, so replay can miss
the stored `balanceAfter` values. -/
theorem c1_balance_replay (draws : List Draw)
    (h : ∀ d ∈ draws, IsCentMultiple d.magnitude) :
    replayBalances startingBalance ((generateFakeTransactions draws).reverse)
      = ((generateFakeTransactions draws).reverse).map
          Transaction.balanceAfter := by
  unfold generateFakeTransactions
  rw [List.reverse_reverse]
  exact replay_genOldestFirst draws 0 startingBalance
    isCentMultiple_startingBalance h

theorem c1_witness :
    replayBalances startingBalance
        ((generateFakeTransactions [centDraw]).reverse)
      = ((generateFakeTransactions [centDraw]).reverse).map
          Transaction.balanceAfter :=
  c1_balance_replay [centDraw]
    (by
      intro d hd
      rw [List.mem_singleton] at hd
      subst hd
      exact ⟨10025, by norm_num [centDraw]⟩)

theorem c4_witness :
    postTransfer mockState "+212600000004" "+212600000002" 5000 ""
      = (.failure 400 "Insufficient balance", mockState) :=
  c4_insufficient_balance mockState "+212600000004" "+212600000002" "" 5000
    (324775 / 100) ⟨3, "Active customer"⟩ (by decide) (by decide)
    (by norm_num) (by rfl) (by norm_num) (by rfl) (by norm_num)





